import Mathlib

/-!
Shallow embedding of the transaction manager in `src/box/txn.cc`
(Tarantool, 2016-era excerpt with two-phase-commit support).

The per-fiber context is a `State`: the fiber's active transaction
(`in_txn()`), an append-only trace of externally observable events
(engine hooks, trigger runs, arena destruction, WAL submission, fiber
rescheduling), the recovery LSN counter, and the diagnostics slot.
C++ `tnt_raise`/`diag_set` exceptions are modelled with
`Except (Err × State)`: the exception propagates while all global side
effects performed so far persist in the carried state.  C `assert`
failures (aborts) and null-pointer dereferences are modelled as the
distinguished error `Err.assertFailed`; they are unreachable from
states the public entry points produce.
-/

namespace TxnModel

/-- Maximum recursion depth for on_replace triggers (`enum { TXN_SUB_STMT_MAX = 3 }`). -/
def TXN_SUB_STMT_MAX : Int := 3

def UINT64_MAX : Nat := 2 ^ 64 - 1

def UINT32_MAX : Nat := 2 ^ 32 - 1

/-- Error kinds raised or set in diagnostics by `txn.cc` (`ClientError` /
`LoggedError` codes), plus `assertFailed` for C `assert` aborts and
null-pointer dereferences.  `ER_WAL_IO_FAILED` stands for the C error
code named `ER_WAL_IO` in `errcode.h`. -/
inductive Err where
  | ER_ALREADY_PREPARED
  | ER_ILLEGAL_PARAMS
  | ER_CROSS_ENGINE_TRANSACTION
  | ER_SUB_STMT_MAX
  | ER_CHANGE_PREPARED
  | ER_WAL_IO_FAILED
  | ER_ACTIVE_TRANSACTION
  | ER_NO_ACTIVE_TRANSACTION
  | ER_COMMIT_IN_SUB_STMT
  | ER_COMMIT_BEFORE_PREPARE
  | ER_ROLLBACK_IN_SUB_STMT
  | ER_UNSUPPORTED
  | assertFailed
deriving Repr, DecidableEq

/-- `struct xrow_header` (the fields `txn.cc` touches). -/
structure XrowHeader where
  htype : Nat
  replica_id : Nat
  lsn : Int
  sync : Nat
  tm : Int
  tx_id : Nat
  coordinator_id : Nat
  bodycnt : Nat
deriving Repr, DecidableEq

/-- `struct request` as seen by `txn_add_redo`: an optional pre-decoded
binary row (`request->header`), the request type, and the result of
`request_encode` (an external encoder, abstracted to one number). -/
structure Request where
  header : Option XrowHeader
  rtype : Nat
  encodedBody : Nat
deriving Repr, DecidableEq

/-- `struct space` as seen by `txn.cc`: its owning engine
(`space->handler->engine`, engines abstracted to identifiers), the
temporary flag read by `space_is_temporary`, the `on_replace` trigger
list, and the `run_triggers` switch. -/
structure Space where
  sid : Nat
  engine : Nat
  is_temporary : Bool
  on_replace : List Nat
  run_triggers : Bool
deriving Repr, DecidableEq

/-- `struct txn_stmt`. -/
structure TxnStmt where
  space : Option Space
  old_tuple : Option Nat
  new_tuple : Option Nat
  engine_savepoint : Option Nat
  row : Option XrowHeader
deriving Repr, DecidableEq

/-- `struct txn` (the fields `txn.cc` reads or writes). -/
structure Txn where
  stmts : List TxnStmt
  is_two_phase : Bool
  in_prepare : Bool
  tx_id : Nat
  coordinator_id : Nat
  n_rows : Int
  is_autocommit : Bool
  has_triggers : Bool
  in_sub_stmt : Int
  engine : Option Nat
deriving Repr, DecidableEq

/-- Externally observable actions: calls into the bound engine, trigger
runs, arena (region) destruction, fiber rescheduling, WAL submission and
the slow-write warning. -/
inductive Event where
  | engineBegin (e : Nat)
  | engineBeginStatement (e : Nat)
  | enginePrepare (e : Nat)
  | enginePrepareTwoPhase (e : Nat)
  | engineCommit (e : Nat) (signature : Int)
  | engineRollback (e : Nat)
  | engineRollbackStatement (e : Nat)
  | triggerRunOnReplace (sid : Nat)
  | triggerRunOnCommit
  | triggerRunOnRollback
  | regionDestroy
  | fiberReschedule
  | walWrite (rows : List XrowHeader)
  | sayWarnTooLong
deriving Repr, DecidableEq

/-- The per-fiber context: `fiber()->...->txn` (`in_txn()`), the event
trace, the recovery LSN counter, the recovery replica id, and the
process-wide diagnostics slot written by `tnt_raise`/`diag_set`. -/
structure State where
  txn : Option Txn
  events : List Event
  recoveryLsn : Int
  replica_id : Nat
  diag : Option Err
deriving Repr, DecidableEq

/-- Environment of one commit attempt: whether a WAL writer is attached
(`wal != NULL`), the result `wal_write` would return, the fallback
`vclock_sum(&recovery->vclock)`, the wall clock at stamping time, and
the latency measurement inputs. -/
structure WalEnv where
  walPresent : Bool
  walResult : Int
  vclockSum : Int
  now : Int
  tstart : Int
  tstop : Int
  too_long_threshold : Int
deriving Repr, DecidableEq

def State.emit (s : State) (ev : Event) : State :=
  { s with events := s.events ++ [ev] }

/-- `tnt_raise` / `diag_set`: record the error in the diagnostics slot
and produce the exception payload. -/
def State.raise (s : State) (e : Err) : Err × State :=
  (e, { s with diag := some e })

def mapTxn (f : Txn → Txn) (s : State) : State :=
  { s with txn := s.txn.map f }

/-- Replace the last element of a list (the `stailq_last_entry` target). -/
def updateLast {α : Type} (f : α → α) : List α → List α
  | [] => []
  | [x] => [f x]
  | x :: y :: xs => x :: updateLast f (y :: xs)

/-- `txn_add_redo`: `stmt->row = request->header`; for requests with no
pre-decoded row (Lua requests) build a redo row from the request, with
every other header field zeroed. -/
def txn_add_redo (stmt : TxnStmt) (request : Request) : TxnStmt :=
  { stmt with row := some (match request.header with
      | some row => row
      | none =>
        { htype := request.rtype, replica_id := 0, lsn := 0, sync := 0,
          tm := 0, tx_id := 0, coordinator_id := 0,
          bodycnt := request.encodedBody }) }

/-- `txn_stmt_new`: append a zero-initialized statement record to the
transaction and increment `in_sub_stmt`. -/
def txn_stmt_new (txn : Txn) : Txn :=
  { txn with
    stmts := txn.stmts ++ [{ space := none, old_tuple := none, new_tuple := none,
                             engine_savepoint := none, row := none }],
    in_sub_stmt := txn.in_sub_stmt + 1 }

/-- `txn_begin`. -/
def txn_begin (is_autocommit : Bool) (s : State) : Except (Err × State) State :=
  if s.txn.isSome then .error (.assertFailed, s)
  else .ok { s with txn := some {
    stmts := [], is_two_phase := false, in_prepare := false,
    tx_id := UINT64_MAX, coordinator_id := UINT32_MAX, n_rows := 0,
    is_autocommit := is_autocommit, has_triggers := false, in_sub_stmt := 0,
    engine := none } }

/-- `txn_begin_two_phase`. -/
def txn_begin_two_phase (tx_id coordinator_id : Nat) (s : State) :
    Except (Err × State) State :=
  match txn_begin false s with
  | .error es => .error es
  | .ok s1 =>
    .ok (mapTxn (fun t => { t with tx_id := tx_id,
                                   coordinator_id := coordinator_id,
                                   is_two_phase := true }) s1)

/-- `txn_prepare_two_phase` (acting on the fiber's transaction, which the
C code asserts equals the `txn` argument). -/
def txn_prepare_two_phase (header : XrowHeader) (s : State) :
    Except (Err × State) State :=
  match s.txn with
  | none => .error (.assertFailed, s)
  | some t =>
    if t.in_prepare then .error (s.raise .ER_ALREADY_PREPARED)
    else if ! t.is_two_phase then .error (s.raise .ER_ILLEGAL_PARAMS)
    else if header.tx_id ≠ t.tx_id ∨ header.coordinator_id ≠ t.coordinator_id then
      .error (.assertFailed, s)
    else
      let s1 := mapTxn (fun u => { u with in_prepare := true }) s
      match t.engine with
      | some e => .ok (s1.emit (.enginePrepareTwoPhase e))
      | none => .ok s1

/-- `txn_begin_in_engine`. -/
def txn_begin_in_engine (engine : Nat) (s : State) : Except (Err × State) State :=
  match s.txn with
  | none => .error (.assertFailed, s)
  | some t =>
    match t.engine with
    | none =>
      if t.stmts ≠ [] then .error (.assertFailed, s)
      else .ok ((mapTxn (fun u => { u with engine := some engine }) s).emit
                  (.engineBegin engine))
    | some e =>
      if e ≠ engine then .error (s.raise .ER_CROSS_ENGINE_TRANSACTION)
      else .ok s

/-- `txn_begin_stmt`. -/
def txn_begin_stmt (space : Space) (s : State) : Except (Err × State) State :=
  let checked : Except (Err × State) State :=
    match s.txn with
    | none => txn_begin true s
    | some t =>
      if t.in_sub_stmt > TXN_SUB_STMT_MAX then .error (s.raise .ER_SUB_STMT_MAX)
      else if t.in_prepare then
        if ! t.is_two_phase then .error (.assertFailed, s)
        else .error (s.raise .ER_CHANGE_PREPARED)
      else .ok s
  match checked with
  | .error es => .error es
  | .ok s1 =>
    match txn_begin_in_engine space.engine s1 with
    | .error es => .error es
    | .ok s2 =>
      let s3 := mapTxn txn_stmt_new s2
      let s4 := mapTxn (fun t =>
        { t with stmts := updateLast (fun st => { st with space := some space })
                            t.stmts }) s3
      .ok (s4.emit (.engineBeginStatement space.engine))

/-- `txn_rollback` (never throws). -/
def txn_rollback (s : State) : State :=
  match s.txn with
  | none => s
  | some t =>
    let s1 := if t.has_triggers then s.emit .triggerRunOnRollback else s
    let s2 := match t.engine with
      | some e => s1.emit (.engineRollback e)
      | none => s1
    let s3 := s2.emit .regionDestroy
    { s3 with txn := none }

/-- Modelled from the spec: `recovery_fill_lsn` (in `recovery.cc`, outside
the excerpt) stamps each submitted row with the next globally monotonic
sequence number; the caller then sets the row's wall-clock timestamp.
`lsn0` is the recovery position before this request. -/
def stamp_rows (lsn0 : Int) (now : Int) (rows : List XrowHeader) : List XrowHeader :=
  rows.enum.map (fun p => { p.2 with lsn := lsn0 + p.1 + 1, tm := now })

/-- `txn_write_to_wal`: gather the non-void rows of all statements in
statement order into one WAL request, stamp them, submit (or fall back to
`vclock_sum` when no WAL writer is attached), and on a negative result
perform the cascading rollback, reschedule the fiber and raise `ER_WAL_IO_FAILED`. -/
def txn_write_to_wal (env : WalEnv) (s : State) : Except (Err × State) (Int × State) :=
  match s.txn with
  | none => .error (.assertFailed, s)
  | some t =>
    if t.n_rows ≤ 0 then .error (.assertFailed, s)
    else
      let rows0 := t.stmts.filterMap (fun st => st.row)
      let rows := stamp_rows s.recoveryLsn env.now rows0
      let s1 := { s with recoveryLsn := s.recoveryLsn + rows.length }
      if (rows.length : Int) ≠ t.n_rows then .error (.assertFailed, s1)
      else
        let res := if env.walPresent then env.walResult else env.vclockSum
        let s2 := if env.walPresent then s1.emit (.walWrite rows) else s1
        let s3 := if env.tstop - env.tstart > env.too_long_threshold
          then s2.emit .sayWarnTooLong else s2
        if res < 0 then
          let s4 := txn_rollback s3
          let s5 := s4.emit .fiberReschedule
          .error (s5.raise .ER_WAL_IO_FAILED)
        else
          .ok (res, s3)

/-- `txn_commit`. -/
def txn_commit (env : WalEnv) (s : State) : Except (Err × State) State :=
  match s.txn with
  | none => .error (.assertFailed, s)
  | some t =>
    if ¬ (t.stmts = [] ∨ t.engine.isSome) then .error (.assertFailed, s)
    else if t.is_two_phase ∧ ¬ t.in_prepare then .error (.assertFailed, s)
    else
      let afterEngine : Except (Err × State) State :=
        match t.engine with
        | none => .ok s
        | some e =>
          let s1 := if ! t.is_two_phase then s.emit (.enginePrepare e) else s
          match (if t.n_rows > 0 then txn_write_to_wal env s1
                 else .ok ((-1 : Int), s1)) with
          | .error es => .error es
          | .ok (signature, s2) =>
            let s3 := if t.has_triggers then s2.emit .triggerRunOnCommit else s2
            .ok (s3.emit (.engineCommit e signature))
      match afterEngine with
      | .error es => .error es
      | .ok s4 =>
        let s5 := s4.emit .regionDestroy
        .ok { s5 with txn := none }

/-- `txn_commit_stmt`. -/
def txn_commit_stmt (env : WalEnv) (request : Request) (s : State) :
    Except (Err × State) State :=
  match s.txn with
  | none => .error (.assertFailed, s)
  | some t =>
    if t.in_sub_stmt ≤ 0 then .error (.assertFailed, s)
    else if t.in_prepare then .error (.assertFailed, s)
    else
      match t.stmts.getLast? with
      | none => .error (.assertFailed, s)
      | some stmt =>
        match stmt.space with
        | none => .error (.assertFailed, s)
        | some sp =>
          let s1 := if ! sp.is_temporary then
              mapTxn (fun t =>
                { t with stmts := updateLast (fun st => txn_add_redo st request) t.stmts,
                         n_rows := t.n_rows + 1 }) s
            else s
          let s2 := if sp.on_replace ≠ [] ∧ sp.run_triggers ∧
                       (stmt.old_tuple.isSome ∨ stmt.new_tuple.isSome)
            then s1.emit (.triggerRunOnReplace sp.sid) else s1
          let s3 := mapTxn (fun t => { t with in_sub_stmt := t.in_sub_stmt - 1 }) s2
          if t.is_autocommit ∧ t.in_sub_stmt - 1 = 0 then txn_commit env s3
          else .ok s3

/-- `txn_rollback_stmt`. -/
def txn_rollback_stmt (s : State) : Except (Err × State) State :=
  match s.txn with
  | none => .ok s
  | some t =>
    if t.is_autocommit then .ok (txn_rollback s)
    else if t.in_sub_stmt = 0 then .ok s
    else
      match t.stmts.getLast? with
      | none => .error (.assertFailed, s)
      | some stmt =>
        match t.engine with
        | none => .error (.assertFailed, s)
        | some e =>
          let s1 := s.emit (.engineRollbackStatement e)
          let s2 := if stmt.row.isSome then
              mapTxn (fun t =>
                { t with stmts := updateLast (fun st => { st with row := none }) t.stmts,
                         n_rows := t.n_rows - 1 }) s1
            else s1
          if stmt.row.isSome ∧ t.n_rows - 1 < 0 then .error (.assertFailed, s2)
          else .ok (mapTxn (fun t => { t with in_sub_stmt := t.in_sub_stmt - 1 }) s2)

/-- Models the storage engine executing the statement body between
`txn_begin_stmt` and `txn_commit_stmt`: the engine records the previous
and the new value on the current (last) statement record.  This is
collaborator behaviour at the Engine Binding interface; the manager
itself never writes these fields. -/
def stmt_set_tuples (old_t new_t : Option Nat) (s : State) : State :=
  mapTxn (fun t =>
    { t with stmts := updateLast (fun st =>
        { st with old_tuple := old_t, new_tuple := new_t }) t.stmts }) s

/-- Opcode tag of the prepare row (`IPROTO_PREPARE`, defined in
`iproto_constants.h`, outside the excerpt; its value does not affect
the manager's control flow). -/
def IPROTO_PREPARE : Nat := 14

/-- `box_txn`. -/
def box_txn (s : State) : Bool := s.txn.isSome

/-- `box_txn_begin`. -/
def box_txn_begin (s : State) : Int × State :=
  if s.txn.isSome then (-1, { s with diag := some .ER_ACTIVE_TRANSACTION })
  else match txn_begin false s with
    | .ok s1 => (0, s1)
    | .error (_, s1) => (-1, s1)

/-- `box_txn_begin_two_phase`. -/
def box_txn_begin_two_phase (tx_id coordinator_id : Nat) (s : State) : Int × State :=
  if s.txn.isSome then (-1, { s with diag := some .ER_ACTIVE_TRANSACTION })
  else match txn_begin_two_phase tx_id coordinator_id s with
    | .ok s1 => (0, s1)
    | .error (_, s1) => (-1, s1)

/-- `box_txn_prepare_two_phase`. -/
def box_txn_prepare_two_phase (s : State) : Int × State :=
  match s.txn with
  | none => (-1, { s with diag := some .ER_NO_ACTIVE_TRANSACTION })
  | some t =>
    let row : XrowHeader :=
      { htype := IPROTO_PREPARE, replica_id := s.replica_id, lsn := 0, sync := 0,
        tm := 0, tx_id := t.tx_id, coordinator_id := t.coordinator_id, bodycnt := 0 }
    match txn_prepare_two_phase row s with
    | .ok s1 => (0, s1)
    | .error (_, s1) => (-1, s1)

/-- `box_txn_commit`. -/
def box_txn_commit (env : WalEnv) (s : State) : Int × State :=
  match s.txn with
  | none => (0, s)
  | some t =>
    if t.in_sub_stmt ≠ 0 then (-1, { s with diag := some .ER_COMMIT_IN_SUB_STMT })
    else if t.is_two_phase ∧ ¬ t.in_prepare then
      (-1, { s with diag := some .ER_COMMIT_BEFORE_PREPARE })
    else match txn_commit env s with
      | .ok s1 => (0, s1)
      | .error (_, s1) => (-1, txn_rollback s1)

/-- `box_txn_rollback`. -/
def box_txn_rollback (s : State) : Int × State :=
  match s.txn with
  | some t =>
    if t.in_sub_stmt ≠ 0 then (-1, { s with diag := some .ER_ROLLBACK_IN_SUB_STMT })
    else (0, txn_rollback s)
  | none => (0, txn_rollback s)

/-! ## Derived notions and helper lemmas -/

/-- Number of statement records whose log row is present — what
`txn_write_to_wal` will actually put into the WAL request. -/
def countRows (l : List TxnStmt) : Int :=
  ((l.filterMap TxnStmt.row).length : Int)

/-- The context after an operation, whether it returned or threw
(C++ exceptions leave all global side effects in place). -/
def outState : Except (Err × State) State → State
  | .ok s => s
  | .error (_, s) => s

/-- Same, for `txn_write_to_wal` which also returns a signature. -/
def outStateSig : Except (Err × State) (Int × State) → State
  | .ok p => p.2
  | .error (_, s) => s

/-! ## Concrete fixtures -/

/-- A plain persistent space owned by engine `0`, with no triggers. -/
def spA : Space :=
  { sid := 1, engine := 0, is_temporary := false, on_replace := [], run_triggers := true }

/-- A persistent space owned by a different engine `1`. -/
def spB : Space :=
  { sid := 2, engine := 1, is_temporary := false, on_replace := [], run_triggers := true }

/-- A temporary space owned by engine `0`. -/
def spTemp : Space :=
  { sid := 3, engine := 0, is_temporary := true, on_replace := [], run_triggers := true }

/-- A persistent space owned by engine `0` with one registered
`on_replace` trigger, triggers enabled. -/
def spTrig : Space :=
  { sid := 4, engine := 0, is_temporary := false, on_replace := [7], run_triggers := true }

/-- The initial context: no active transaction, empty trace. -/
def s0 : State :=
  { txn := none, events := [], recoveryLsn := 0, replica_id := 1, diag := none }

/-- A request with no pre-decoded row (a Lua request). -/
def reqL : Request := { header := none, rtype := 2, encodedBody := 9 }

def rowH : XrowHeader :=
  { htype := 3, replica_id := 0, lsn := 0, sync := 0, tm := 0, tx_id := 0,
    coordinator_id := 0, bodycnt := 1 }

/-- A request carrying a pre-decoded binary row. -/
def reqH : Request := { header := some rowH, rtype := 3, encodedBody := 0 }

/-- WAL attached, write succeeds with signature 7, fast write. -/
def envOk : WalEnv :=
  { walPresent := true, walResult := 7, vclockSum := 3, now := 100,
    tstart := 0, tstop := 0, too_long_threshold := 10 }

/-- WAL attached, write fails (negative result), fast write. -/
def envFail : WalEnv :=
  { walPresent := true, walResult := -1, vclockSum := 3, now := 100,
    tstart := 0, tstop := 0, too_long_threshold := 10 }

/-- Iterate `txn_begin_stmt` on `spA`, stopping at the first failure. -/
def runBeginStmts : Nat → State → Except (Err × State) State
  | 0, s => .ok s
  | n + 1, s =>
    match txn_begin_stmt spA s with
    | .ok s1 => runBeginStmts n s1
    | .error es => .error es

/-- The statement record `txn_begin_stmt` appends for target `sp`. -/
def newStmt (sp : Space) : TxnStmt :=
  { space := some sp, old_tuple := none, new_tuple := none,
    engine_savepoint := none, row := none }

/-- An open, not-yet-committed statement on `spA`. -/
def stA : TxnStmt := newStmt spA

/-- A transaction sitting inside an open sub-statement of a prepared
two-phase transaction — exercises the misuse entry points. -/
def tMisuse : Txn :=
  { stmts := [stA], is_two_phase := true, in_prepare := true, tx_id := 5,
    coordinator_id := 6, n_rows := 0, is_autocommit := false,
    has_triggers := false, in_sub_stmt := 1, engine := some 0 }

def sMisuse : State := { s0 with txn := some tMisuse }

/-- An unprepared two-phase transaction with no open sub-statement. -/
def tUnprepared : Txn :=
  { tMisuse with in_prepare := false, in_sub_stmt := 0 }

def sUnprepared : State := { s0 with txn := some tUnprepared }

/-- A transaction bound to engine 0 with one open statement. -/
def tEngA : Txn :=
  { stmts := [stA], is_two_phase := false, in_prepare := false,
    tx_id := UINT64_MAX, coordinator_id := UINT32_MAX, n_rows := 0,
    is_autocommit := false, has_triggers := false, in_sub_stmt := 1,
    engine := some 0 }

def sEngA : State := { s0 with txn := some tEngA }

/-- A transaction with four open nested statements (the depth the code
actually allows, reached by `runBeginStmts 4`). -/
def t4 : Txn := { tEngA with stmts := [stA, stA, stA, stA], in_sub_stmt := 4 }

def s4 : State := { s0 with txn := some t4 }

/-- A transaction with one open statement on the triggered space whose
execution observed a previous value. -/
def tTrig : Txn :=
  { tEngA with stmts := [{ newStmt spTrig with old_tuple := some 5 }] }

def sTrig : State := { s0 with txn := some tTrig }

/-- A transaction with one committed statement (log row present) still
inside its open sub-statement. -/
def tRoll : Txn :=
  { tEngA with stmts := [{ stA with row := some rowH }], n_rows := 1 }

def sRoll : State := { s0 with txn := some tRoll }

/-- The context after begin + one statement on the persistent space `spA`
whose execution recorded no previous and no new value, committed. -/
def sC4 : State :=
  outState (txn_commit_stmt envOk reqL
    (outState (txn_begin_stmt spA (box_txn_begin s0).2)))

/-- The C9 invariant: whenever a transaction is bound to the context, its
`n_rows` equals the number of its statement records with a present log row. -/
def StateInv (s : State) : Prop :=
  ∀ t, s.txn = some t → t.n_rows = countRows t.stmts

/-- The shape of `txn_write_to_wal`'s outcome as far as the bound
transaction is concerned: on success the binding is untouched; on failure
it is either untouched (assertion paths) or cleared (cascading rollback). -/
def txnShape (base : State) : Except (Err × State) (Int × State) → Prop
  | .ok p => p.2.txn = base.txn
  | .error es => es.2.txn = base.txn ∨ es.2.txn = none

/-- A committed single-statement transaction ready for `box_txn_commit`,
with commit/rollback triggers registered. -/
def tC1 : Txn := { tRoll with in_sub_stmt := 0, has_triggers := true }

def sC1w : State := { s0 with txn := some tC1 }

theorem updateLast_concat {α : Type} (f : α → α) :
    ∀ (l : List α) (x : α), updateLast f (l ++ [x]) = l ++ [f x]
  | [], x => rfl
  | a :: ls, x => by
    have h := updateLast_concat f ls x
    cases ls with
    | nil => rfl
    | cons b ls2 =>
      simp only [List.cons_append] at h ⊢
      rw [updateLast, h]

theorem countRows_concat (l : List TxnStmt) (st : TxnStmt) :
    countRows (l ++ [st]) = countRows l + (if st.row.isSome then 1 else 0) := by
  simp only [countRows, List.filterMap_append, List.length_append]
  cases h : st.row <;> simp [List.filterMap, h]

theorem stamp_rows_length (lsn0 now : Int) (rows : List XrowHeader) :
    (stamp_rows lsn0 now rows).length = rows.length := by
  simp [stamp_rows, List.enum_length]

/-! ## C10 — public commit with no active transaction -/

/-- C10: calling the public commit entry point on a context with no
active transaction returns success (0) and changes nothing, while
`box_txn_prepare_two_phase` on the same context fails, recording
`ER_NO_ACTIVE_TRANSACTION`. -/
theorem box_commit_without_txn_is_noop (env : WalEnv) (s : State)
    (h : s.txn = none) :
    box_txn_commit env s = (0, s) ∧
    box_txn_prepare_two_phase s =
      (-1, { s with diag := some Err.ER_NO_ACTIVE_TRANSACTION }) := by
  constructor
  · simp [box_txn_commit, h]
  · simp [box_txn_prepare_two_phase, h]

theorem box_commit_without_txn_is_noop_witness :
    box_txn_commit envOk s0 = (0, s0) ∧
    box_txn_prepare_two_phase s0 =
      (-1, { s0 with diag := some Err.ER_NO_ACTIVE_TRANSACTION }) :=
  box_commit_without_txn_is_noop envOk s0 rfl

/-! ## C6 — the four misuse cases -/

/-- C6: preparing an already-prepared transaction, committing inside an
open sub-statement, committing a two-phase transaction before prepare,
and rolling back inside an open sub-statement are each rejected with
their own distinct error kind, and each leaves the context's transaction
untouched (only the diagnostics slot changes), so it remains active. -/
theorem misuse_cases_rejected_distinctly (env : WalEnv) (s : State) (t : Txn)
    (h : s.txn = some t) :
    (t.in_prepare = true →
      box_txn_prepare_two_phase s =
        (-1, { s with diag := some Err.ER_ALREADY_PREPARED })) ∧
    (t.in_sub_stmt ≠ 0 →
      box_txn_commit env s =
        (-1, { s with diag := some Err.ER_COMMIT_IN_SUB_STMT })) ∧
    (t.in_sub_stmt = 0 → t.is_two_phase = true → t.in_prepare = false →
      box_txn_commit env s =
        (-1, { s with diag := some Err.ER_COMMIT_BEFORE_PREPARE })) ∧
    (t.in_sub_stmt ≠ 0 →
      box_txn_rollback s =
        (-1, { s with diag := some Err.ER_ROLLBACK_IN_SUB_STMT })) := by
  refine ⟨?_, ?_, ?_, ?_⟩
  · intro hp
    simp [box_txn_prepare_two_phase, txn_prepare_two_phase, h, hp, State.raise]
  · intro hd
    simp [box_txn_commit, h, hd]
  · intro hd h2 hp
    simp [box_txn_commit, h, hd, h2, hp]
  · intro hd
    simp [box_txn_rollback, h, hd]

theorem misuse_cases_rejected_distinctly_witness :
    ((tMisuse.in_prepare = true →
      box_txn_prepare_two_phase sMisuse =
        (-1, { sMisuse with diag := some Err.ER_ALREADY_PREPARED })) ∧
    (tMisuse.in_sub_stmt ≠ 0 →
      box_txn_commit envOk sMisuse =
        (-1, { sMisuse with diag := some Err.ER_COMMIT_IN_SUB_STMT })) ∧
    (tMisuse.in_sub_stmt = 0 → tMisuse.is_two_phase = true →
        tMisuse.in_prepare = false →
      box_txn_commit envOk sMisuse =
        (-1, { sMisuse with diag := some Err.ER_COMMIT_BEFORE_PREPARE })) ∧
    (tMisuse.in_sub_stmt ≠ 0 →
      box_txn_rollback sMisuse =
        (-1, { sMisuse with diag := some Err.ER_ROLLBACK_IN_SUB_STMT }))) ∧
    ((tUnprepared.in_prepare = true →
      box_txn_prepare_two_phase sUnprepared =
        (-1, { sUnprepared with diag := some Err.ER_ALREADY_PREPARED })) ∧
    (tUnprepared.in_sub_stmt ≠ 0 →
      box_txn_commit envOk sUnprepared =
        (-1, { sUnprepared with diag := some Err.ER_COMMIT_IN_SUB_STMT })) ∧
    (tUnprepared.in_sub_stmt = 0 → tUnprepared.is_two_phase = true →
        tUnprepared.in_prepare = false →
      box_txn_commit envOk sUnprepared =
        (-1, { sUnprepared with diag := some Err.ER_COMMIT_BEFORE_PREPARE })) ∧
    (tUnprepared.in_sub_stmt ≠ 0 →
      box_txn_rollback sUnprepared =
        (-1, { sUnprepared with diag := some Err.ER_ROLLBACK_IN_SUB_STMT }))) :=
  ⟨misuse_cases_rejected_distinctly envOk sMisuse tMisuse rfl,
   misuse_cases_rejected_distinctly envOk sUnprepared tUnprepared rfl⟩

/-! ## C5 — cross-engine statements are rejected, transaction stays usable -/

/-- C5: a `txn_begin_stmt` against a space owned by a different engine
than the one the transaction is bound to fails with
`ER_CROSS_ENGINE_TRANSACTION`, leaving the transaction completely intact
(engine binding, statement sequence and sub-statement depth unchanged;
only the diagnostics slot is written), and a subsequent `txn_begin_stmt`
against a space of the bound engine still succeeds normally. -/
theorem cross_engine_stmt_rejected_txn_usable (s : State) (t : Txn) (a : Nat)
    (sp1 sp2 : Space)
    (h : s.txn = some t) (he : t.engine = some a)
    (hb : sp1.engine ≠ a) (hA : sp2.engine = a)
    (hd : t.in_sub_stmt ≤ TXN_SUB_STMT_MAX) (hp : t.in_prepare = false) :
    txn_begin_stmt sp1 s =
      .error (Err.ER_CROSS_ENGINE_TRANSACTION,
              { s with diag := some Err.ER_CROSS_ENGINE_TRANSACTION }) ∧
    txn_begin_stmt sp2 { s with diag := some Err.ER_CROSS_ENGINE_TRANSACTION } =
      .ok { s with
            txn := some { t with stmts := t.stmts ++ [newStmt sp2],
                                 in_sub_stmt := t.in_sub_stmt + 1 },
            events := s.events ++ [Event.engineBeginStatement a],
            diag := some Err.ER_CROSS_ENGINE_TRANSACTION } := by
  have hnd : ¬ t.in_sub_stmt > TXN_SUB_STMT_MAX := not_lt.mpr hd
  constructor
  · simp [txn_begin_stmt, txn_begin_in_engine, h, he, hnd, hp, State.raise,
          Ne.symm hb]
  · simp [txn_begin_stmt, txn_begin_in_engine, h, he, hnd, hp, hA,
          State.raise, mapTxn, State.emit, txn_stmt_new, updateLast_concat,
          newStmt]

theorem cross_engine_stmt_rejected_txn_usable_witness :
    txn_begin_stmt spB sEngA =
      .error (Err.ER_CROSS_ENGINE_TRANSACTION,
              { sEngA with diag := some Err.ER_CROSS_ENGINE_TRANSACTION }) ∧
    txn_begin_stmt spA { sEngA with diag := some Err.ER_CROSS_ENGINE_TRANSACTION } =
      .ok { sEngA with
            txn := some { tEngA with stmts := tEngA.stmts ++ [newStmt spA],
                                     in_sub_stmt := tEngA.in_sub_stmt + 1 },
            events := sEngA.events ++ [Event.engineBeginStatement 0],
            diag := some Err.ER_CROSS_ENGINE_TRANSACTION } :=
  cross_engine_stmt_rejected_txn_usable sEngA tEngA 0 spB spA rfl rfl
    (by decide) rfl (by decide) rfl

/-! ## C2 — sub-statement depth bound (corrected) -/

/-- C2 counterexample: the claim says the open sub-statement depth can
never exceed 3 and that a `begin_statement` issued at depth 3 fails.  In
fact, starting from a fresh context, four nested `txn_begin_stmt` calls
all succeed — the fourth one, issued when the depth is already 3, is
accepted and the depth reaches 4. -/
theorem sub_stmt_depth_claim_counterexample :
    (runBeginStmts 4 (box_txn_begin s0).2).toOption.bind
        (fun s => s.txn.map Txn.in_sub_stmt) = some 4 := by decide

/-- C2 amended: the open sub-statement depth never exceeds
`TXN_SUB_STMT_MAX + 1 = 4`.  A `txn_begin_stmt` issued when the depth
already exceeds the maximum (i.e. at depth 4) fails with
`ER_SUB_STMT_MAX` and leaves the depth and the statement sequence
unchanged (only the diagnostics slot is written); a successful
`txn_begin_stmt` raises the depth by exactly one, keeps it at most 4,
and appends exactly one statement record. -/
theorem sub_stmt_depth_bounded_amended (space : Space) (s s2 : State) (t : Txn)
    (h : s.txn = some t) :
    (t.in_sub_stmt > TXN_SUB_STMT_MAX →
      txn_begin_stmt space s =
        .error (Err.ER_SUB_STMT_MAX, { s with diag := some Err.ER_SUB_STMT_MAX })) ∧
    (txn_begin_stmt space s = .ok s2 →
      ∀ t2, s2.txn = some t2 →
        t2.in_sub_stmt = t.in_sub_stmt + 1 ∧
        t2.in_sub_stmt ≤ TXN_SUB_STMT_MAX + 1 ∧
        t2.stmts.length = t.stmts.length + 1) := by
  constructor
  · intro hgt
    simp [txn_begin_stmt, h, hgt, State.raise]
  · intro hok t2 ht2
    by_cases hgt : t.in_sub_stmt > TXN_SUB_STMT_MAX
    · simp [txn_begin_stmt, h, hgt, State.raise] at hok
    · have hbound : t.in_sub_stmt + 1 ≤ TXN_SUB_STMT_MAX + 1 := by
        simp only [TXN_SUB_STMT_MAX, not_lt] at hgt ⊢
        omega
      by_cases hp : t.in_prepare
      · by_cases h2p : t.is_two_phase <;>
          simp [txn_begin_stmt, h, hgt, hp, h2p, State.raise] at hok
      · cases he : t.engine with
        | none =>
          by_cases hst : t.stmts = []
          · have hrun : txn_begin_stmt space s = .ok { s with
                txn := some { t with stmts := [newStmt space],
                                     in_sub_stmt := t.in_sub_stmt + 1,
                                     engine := some space.engine },
                events := s.events ++ [Event.engineBegin space.engine,
                                       Event.engineBeginStatement space.engine] } := by
              simp [txn_begin_stmt, txn_begin_in_engine, h, hgt, hp, he, hst,
                    mapTxn, State.emit, txn_stmt_new, updateLast_concat,
                    updateLast, newStmt]
            rw [hrun] at hok
            injection hok with hX
            rw [← hX] at ht2
            have hT := Option.some.inj ht2
            rw [← hT]
            exact ⟨rfl, hbound, by simp [hst]⟩
          · simp [txn_begin_stmt, h, hgt, hp, he, hst, txn_begin_in_engine] at hok
        | some e =>
          by_cases hee : e = space.engine
          · have hrun : txn_begin_stmt space s = .ok { s with
                txn := some { t with stmts := t.stmts ++ [newStmt space],
                                     in_sub_stmt := t.in_sub_stmt + 1 },
                events := s.events ++ [Event.engineBeginStatement space.engine] } := by
              simp [txn_begin_stmt, txn_begin_in_engine, h, hgt, hp, he, hee,
                    mapTxn, State.emit, txn_stmt_new, updateLast_concat, newStmt]
            rw [hrun] at hok
            injection hok with hX
            rw [← hX] at ht2
            have hT := Option.some.inj ht2
            rw [← hT]
            exact ⟨rfl, hbound, by simp⟩
          · simp [txn_begin_stmt, h, hgt, hp, he, hee, txn_begin_in_engine,
                  State.raise] at hok

theorem sub_stmt_depth_bounded_amended_witness :
    ((t4.in_sub_stmt > TXN_SUB_STMT_MAX →
      txn_begin_stmt spA s4 =
        .error (Err.ER_SUB_STMT_MAX, { s4 with diag := some Err.ER_SUB_STMT_MAX })) ∧
    (txn_begin_stmt spA s4 = .ok s0 →
      ∀ t2, s0.txn = some t2 →
        t2.in_sub_stmt = t4.in_sub_stmt + 1 ∧
        t2.in_sub_stmt ≤ TXN_SUB_STMT_MAX + 1 ∧
        t2.stmts.length = t4.stmts.length + 1)) ∧
    t4.in_sub_stmt > TXN_SUB_STMT_MAX :=
  ⟨sub_stmt_depth_bounded_amended spA s4 s0 t4 rfl, by decide⟩

/-! ## C7 — on_replace triggers run iff registered, enabled and a value was seen -/

/-- C7: during `txn_commit_stmt` the target space's on-replace triggers
run if and only if the space has at least one registered trigger,
triggers are enabled for the space, and the statement observed a prior
value or produced a new value.  (Stated on a non-autocommit transaction
inside an open, not yet prepared sub-statement.) -/
theorem on_replace_triggers_run_iff (env : WalEnv) (request : Request)
    (s : State) (t : Txn) (stmt : TxnStmt) (sp : Space)
    (h : s.txn = some t) (hd : 0 < t.in_sub_stmt) (hp : t.in_prepare = false)
    (hl : t.stmts.getLast? = some stmt) (hs : stmt.space = some sp)
    (ha : t.is_autocommit = false) :
    ∃ s2, txn_commit_stmt env request s = .ok s2 ∧
      (Event.triggerRunOnReplace sp.sid ∈ s2.events.drop s.events.length ↔
        (sp.on_replace ≠ [] ∧ sp.run_triggers = true ∧
         (stmt.old_tuple.isSome = true ∨ stmt.new_tuple.isSome = true))) := by
  have hd0 : ¬ t.in_sub_stmt ≤ 0 := not_le.mpr hd
  by_cases htemp : sp.is_temporary = true <;>
    by_cases hc : sp.on_replace ≠ [] ∧ sp.run_triggers = true ∧
      (stmt.old_tuple.isSome = true ∨ stmt.new_tuple.isSome = true)
  · refine ⟨{ s with
        txn := some { t with in_sub_stmt := t.in_sub_stmt - 1 },
        events := s.events ++ [Event.triggerRunOnReplace sp.sid] }, ?_, ?_⟩
    · simp [txn_commit_stmt, h, hd0, hp, hl, hs, htemp, hc, ha, mapTxn, State.emit]
    · simp [List.drop_left, hc]
  · refine ⟨{ s with
        txn := some { t with in_sub_stmt := t.in_sub_stmt - 1 } }, ?_, ?_⟩
    · simp [txn_commit_stmt, h, hd0, hp, hl, hs, htemp, hc, ha, mapTxn, State.emit]
    · simpa [List.drop_length] using hc
  · refine ⟨{ s with
        txn := some { t with
          stmts := updateLast (fun st => txn_add_redo st request) t.stmts,
          n_rows := t.n_rows + 1,
          in_sub_stmt := t.in_sub_stmt - 1 },
        events := s.events ++ [Event.triggerRunOnReplace sp.sid] }, ?_, ?_⟩
    · simp [txn_commit_stmt, h, hd0, hp, hl, hs, htemp, hc, ha, mapTxn, State.emit]
    · simp [List.drop_left, hc]
  · refine ⟨{ s with
        txn := some { t with
          stmts := updateLast (fun st => txn_add_redo st request) t.stmts,
          n_rows := t.n_rows + 1,
          in_sub_stmt := t.in_sub_stmt - 1 } }, ?_, ?_⟩
    · simp [txn_commit_stmt, h, hd0, hp, hl, hs, htemp, hc, ha, mapTxn, State.emit]
    · simpa [List.drop_length] using hc

theorem on_replace_triggers_run_iff_witness :
    ∃ s2, txn_commit_stmt envOk reqL sTrig = .ok s2 ∧
      (Event.triggerRunOnReplace spTrig.sid ∈ s2.events.drop sTrig.events.length ↔
        (spTrig.on_replace ≠ [] ∧ spTrig.run_triggers = true ∧
         (({ newStmt spTrig with old_tuple := some 5 } : TxnStmt).old_tuple.isSome = true ∨
          ({ newStmt spTrig with old_tuple := some 5 } : TxnStmt).new_tuple.isSome = true))) :=
  on_replace_triggers_run_iff envOk reqL sTrig tTrig
    { newStmt spTrig with old_tuple := some 5 } spTrig rfl (by decide) rfl rfl rfl rfl

/-! ## C8 — rollback_statement voids only the last statement -/

/-- C8: on a non-autocommit transaction with an open sub-statement,
`txn_rollback_stmt` voids only the last statement's log row (decreasing
`n_rows` by exactly that statement's contribution: 1 if it had a row,
0 otherwise) and decrements the sub-statement depth, while the statement
record itself stays in the sequence and all earlier statements —
including their log rows — are untouched. -/
theorem rollback_stmt_voids_only_last (s : State) (t : Txn)
    (init : List TxnStmt) (lst : TxnStmt) (e : Nat)
    (h : s.txn = some t) (ha : t.is_autocommit = false)
    (hd : t.in_sub_stmt ≠ 0) (hstmts : t.stmts = init ++ [lst])
    (he : t.engine = some e) (hn : t.n_rows = countRows t.stmts) :
    txn_rollback_stmt s = .ok
      { s with
        txn := some { t with
          stmts := init ++ [{ lst with row := none }],
          n_rows := t.n_rows - (if lst.row.isSome then 1 else 0),
          in_sub_stmt := t.in_sub_stmt - 1 },
        events := s.events ++ [Event.engineRollbackStatement e] } := by
  have hlast : t.stmts.getLast? = some lst := by
    rw [hstmts]; exact List.getLast?_concat init
  have hcount0 : (0 : Int) ≤ countRows init := by
    simp [countRows]
  cases hrow : lst.row with
  | none =>
    have hlst : ({ lst with row := none } : TxnStmt) = lst := by
      cases lst; simp_all
    simp [txn_rollback_stmt, h, ha, hd, hlast, he, hrow, State.emit, mapTxn,
          hlst, hstmts]
  | some r =>
    have hpos : 0 < t.n_rows := by
      rw [hn, hstmts, countRows_concat, hrow]
      simp only [Option.isSome_some, if_true]
      omega
    have hnneg : ¬ t.n_rows - 1 < 0 := by omega
    simp [txn_rollback_stmt, h, ha, hd, hlast, he, hrow, hnneg, State.emit,
          mapTxn, hstmts, updateLast_concat]

theorem rollback_stmt_voids_only_last_witness :
    txn_rollback_stmt sRoll = .ok
      { sRoll with
        txn := some { tRoll with
          stmts := [] ++ [{ { stA with row := some rowH } with row := none }],
          n_rows := tRoll.n_rows -
            (if ({ stA with row := some rowH } : TxnStmt).row.isSome then 1 else 0),
          in_sub_stmt := tRoll.in_sub_stmt - 1 },
        events := sRoll.events ++ [Event.engineRollbackStatement 0] } :=
  rollback_stmt_voids_only_last sRoll tRoll [] { stA with row := some rowH } 0
    rfl rfl (by decide) rfl rfl (by decide)

/-! ## C4 — what row_count counts (corrected) -/

/-- C4 counterexample: the claim says `row_count` counts only statements
that "produced a value change".  In fact a statement on a non-transient
space whose record holds neither a previous nor a new value (no value
change observed) still gets a redo row and still increments `n_rows`:
after one such statement `n_rows = 1`, and the commit submits one WAL
row for it. -/
theorem row_count_value_change_counterexample :
    sC4.txn.map Txn.n_rows = some 1 ∧
    sC4.txn.map (fun t => t.stmts.map (fun st => (st.old_tuple, st.new_tuple)))
      = some [(none, none)] ∧
    (box_txn_commit envOk sC4).2.events.filterMap
        (fun ev => match ev with
          | Event.walWrite rows => some rows.length
          | _ => none) = [1] := by decide

/-- C4 amended: after `txn_commit_stmt`, `n_rows` has grown by one exactly
when the target space is non-transient — irrespective of whether the
statement observed a prior value or produced a new one — and the
statement's log row is present exactly then; a statement on a transient
target contributes no log row and leaves `n_rows` unchanged.  (Stated on
a non-autocommit transaction with an open, fresh last statement.) -/
theorem row_count_counts_non_temporary_amended (env : WalEnv)
    (request : Request) (s : State) (t : Txn) (stmt : TxnStmt) (sp : Space)
    (h : s.txn = some t) (hd : 0 < t.in_sub_stmt) (hp : t.in_prepare = false)
    (hl : t.stmts.getLast? = some stmt) (hs : stmt.space = some sp)
    (hr : stmt.row = none) (ha : t.is_autocommit = false) :
    ∃ s2 t2, txn_commit_stmt env request s = .ok s2 ∧ s2.txn = some t2 ∧
      t2.n_rows = t.n_rows + (if sp.is_temporary then 0 else 1) ∧
      countRows t2.stmts = countRows t.stmts + (if sp.is_temporary then 0 else 1) := by
  have hd0 : ¬ t.in_sub_stmt ≤ 0 := not_le.mpr hd
  obtain ⟨init, hinit⟩ := List.getLast?_eq_some_iff.mp hl
  have hcnt : countRows (updateLast (fun st => txn_add_redo st request) t.stmts)
      = countRows t.stmts + 1 := by
    rw [hinit, updateLast_concat, countRows_concat, countRows_concat, hr]
    simp [txn_add_redo]
  by_cases htemp : sp.is_temporary = true <;>
    by_cases hc : sp.on_replace ≠ [] ∧ sp.run_triggers = true ∧
      (stmt.old_tuple.isSome = true ∨ stmt.new_tuple.isSome = true)
  · refine ⟨{ s with
        txn := some { t with in_sub_stmt := t.in_sub_stmt - 1 },
        events := s.events ++ [Event.triggerRunOnReplace sp.sid] },
      { t with in_sub_stmt := t.in_sub_stmt - 1 }, ?_, rfl, by simp [htemp],
      by simp [htemp]⟩
    simp [txn_commit_stmt, h, hd0, hp, hl, hs, htemp, hc, ha, mapTxn, State.emit]
  · refine ⟨{ s with
        txn := some { t with in_sub_stmt := t.in_sub_stmt - 1 } },
      { t with in_sub_stmt := t.in_sub_stmt - 1 }, ?_, rfl, by simp [htemp],
      by simp [htemp]⟩
    simp [txn_commit_stmt, h, hd0, hp, hl, hs, htemp, hc, ha, mapTxn, State.emit]
  · refine ⟨{ s with
        txn := some { t with
          stmts := updateLast (fun st => txn_add_redo st request) t.stmts,
          n_rows := t.n_rows + 1,
          in_sub_stmt := t.in_sub_stmt - 1 },
        events := s.events ++ [Event.triggerRunOnReplace sp.sid] },
      { t with
          stmts := updateLast (fun st => txn_add_redo st request) t.stmts,
          n_rows := t.n_rows + 1,
          in_sub_stmt := t.in_sub_stmt - 1 }, ?_, rfl, by simp [htemp],
      by simp [htemp, hcnt]⟩
    simp [txn_commit_stmt, h, hd0, hp, hl, hs, htemp, hc, ha, mapTxn, State.emit]
  · refine ⟨{ s with
        txn := some { t with
          stmts := updateLast (fun st => txn_add_redo st request) t.stmts,
          n_rows := t.n_rows + 1,
          in_sub_stmt := t.in_sub_stmt - 1 } },
      { t with
          stmts := updateLast (fun st => txn_add_redo st request) t.stmts,
          n_rows := t.n_rows + 1,
          in_sub_stmt := t.in_sub_stmt - 1 }, ?_, rfl, by simp [htemp],
      by simp [htemp, hcnt]⟩
    simp [txn_commit_stmt, h, hd0, hp, hl, hs, htemp, hc, ha, mapTxn, State.emit]

theorem row_count_counts_non_temporary_amended_witness :
    (∃ s2 t2, txn_commit_stmt envOk reqL sEngA = .ok s2 ∧ s2.txn = some t2 ∧
      t2.n_rows = tEngA.n_rows + (if spA.is_temporary then 0 else 1) ∧
      countRows t2.stmts =
        countRows tEngA.stmts + (if spA.is_temporary then 0 else 1)) :=
  row_count_counts_non_temporary_amended envOk reqL sEngA tEngA stA spA
    rfl (by decide) rfl rfl rfl rfl rfl

/-! ## C9 — row_count always equals the number of present log rows -/

@[simp] theorem emit_txn (s : State) (ev : Event) : (State.emit s ev).txn = s.txn := rfl

@[simp] theorem mapTxn_txn (f : Txn → Txn) (s : State) :
    (mapTxn f s).txn = s.txn.map f := rfl

@[simp] theorem mapTxn_events (f : Txn → Txn) (s : State) :
    (mapTxn f s).events = s.events := rfl

theorem stateInv_of_txn_eq {s s2 : State} (h : s2.txn = s.txn) (hs : StateInv s) :
    StateInv s2 := fun t ht => hs t (by rw [← h]; exact ht)

theorem stateInv_of_txn_none {s : State} (h : s.txn = none) : StateInv s := by
  intro t ht
  rw [h] at ht
  exact absurd ht (by simp)

theorem stateInv_mk {s : State} {t : Txn} (h : s.txn = some t)
    (hinv : t.n_rows = countRows t.stmts) : StateInv s := by
  intro u hu
  rw [h] at hu
  rw [← Option.some.inj hu]
  exact hinv

theorem txn_rollback_txn_none (s : State) : (txn_rollback s).txn = none := by
  cases h : s.txn <;> simp [txn_rollback, h]

theorem write_to_wal_txn_shape (env : WalEnv) (s : State) :
    txnShape s (txn_write_to_wal env s) := by
  cases h : s.txn with
  | none => simp [txn_write_to_wal, h, txnShape]
  | some t =>
    by_cases h1 : t.n_rows ≤ 0
    · simp [txn_write_to_wal, h, h1, txnShape]
    · by_cases h2 : ((stamp_rows s.recoveryLsn env.now
          (t.stmts.filterMap TxnStmt.row)).length : Int) ≠ t.n_rows
      · simp [txn_write_to_wal, h, h1, h2, txnShape]
      · by_cases hw : env.walPresent = true
        · by_cases h3 : env.walResult < 0 <;>
            by_cases hwarn : env.tstop - env.tstart > env.too_long_threshold <;>
              simp [txn_write_to_wal, h, h1, h2, hw, h3, hwarn, txnShape,
                    State.emit, State.raise, txn_rollback_txn_none]
        · by_cases h3 : env.vclockSum < 0 <;>
            by_cases hwarn : env.tstop - env.tstart > env.too_long_threshold <;>
              simp [txn_write_to_wal, h, h1, h2, hw, h3, hwarn, txnShape,
                    State.emit, State.raise, txn_rollback_txn_none]

theorem commit_txn_shape (env : WalEnv) (s : State) :
    (outState (txn_commit env s)).txn = s.txn ∨
    (outState (txn_commit env s)).txn = none := by
  cases h : s.txn with
  | none => left; simp [txn_commit, h, outState]
  | some t =>
    by_cases ha1 : ¬ (t.stmts = [] ∨ t.engine.isSome = true)
    · left; simp [txn_commit, h, ha1, outState]
    · by_cases ha2 : t.is_two_phase = true ∧ ¬ t.in_prepare = true
      · left; simp [txn_commit, h, ha1, ha2, outState]
      · have hpa : ¬ (t.is_two_phase = true ∧ t.in_prepare = false) := by
          intro hx
          exact ha2 ⟨hx.1, by simp [hx.2]⟩
        cases he : t.engine with
        | none =>
          have hst : t.stmts = [] := by
            rcases not_not.mp ha1 with h' | h'
            · exact h'
            · rw [he] at h'; simp at h'
          right
          simp [txn_commit, h, ha1, hpa, he, hst, outState, State.emit]
        | some e =>
          by_cases hn : t.n_rows > 0
          · have hshape := write_to_wal_txn_shape env
              (if t.is_two_phase = false then s.emit (Event.enginePrepare e) else s)
            cases hE : txn_write_to_wal env
                (if t.is_two_phase = false then s.emit (Event.enginePrepare e) else s) with
            | error es =>
              rw [hE] at hshape
              simp only [txnShape] at hshape
              have hout : outState (txn_commit env s) = es.2 := by
                simp [txn_commit, h, ha1, hpa, he, hn, hE, outState]
              rw [hout]
              rcases hshape with h4 | h4
              · left
                rw [h4]
                split <;> exact h
              · right; exact h4
            | ok p =>
              right
              simp [txn_commit, h, ha1, hpa, he, hn, hE, outState]
          · right
            simp [txn_commit, h, ha1, hpa, he, hn, outState]

theorem stateInv_commit (env : WalEnv) (s : State) (hs : StateInv s) :
    StateInv (outState (txn_commit env s)) := by
  rcases commit_txn_shape env s with hEq | hNone
  · exact stateInv_of_txn_eq hEq hs
  · exact stateInv_of_txn_none hNone

/-- C9: the invariant "`n_rows` equals the number of statement records
whose log row is present" holds for every transaction bound to the
context after `txn_begin_stmt`, `txn_commit_stmt` (committing the open,
not-yet-committed last statement) and `txn_rollback_stmt`, whether the
operation returns or throws; consequently the WAL request built at
commit holds exactly `n_rows` rows. -/
theorem row_count_invariant_all_ops :
    (∀ (sp : Space) (s : State), StateInv s →
      StateInv (outState (txn_begin_stmt sp s))) ∧
    (∀ (env : WalEnv) (request : Request) (s : State) (t : Txn) (stmt : TxnStmt),
      s.txn = some t →
      t.stmts.getLast? = some stmt → stmt.row = none → StateInv s →
      StateInv (outState (txn_commit_stmt env request s))) ∧
    (∀ s : State, StateInv s → StateInv (outState (txn_rollback_stmt s))) ∧
    (∀ (env : WalEnv) (s : State) (t : Txn), s.txn = some t → StateInv s →
      ((stamp_rows s.recoveryLsn env.now (t.stmts.filterMap TxnStmt.row)).length : Int)
        = t.n_rows) := by
  refine ⟨?_, ?_, ?_, ?_⟩
  · -- txn_begin_stmt
    intro sp s hs
    cases h : s.txn with
    | none =>
      have hrun : txn_begin_stmt sp s = .ok { s with
          txn := some { stmts := [newStmt sp], is_two_phase := false,
                        in_prepare := false, tx_id := UINT64_MAX,
                        coordinator_id := UINT32_MAX, n_rows := 0,
                        is_autocommit := true, has_triggers := false,
                        in_sub_stmt := 1, engine := some sp.engine },
          events := s.events ++ [Event.engineBegin sp.engine,
                                 Event.engineBeginStatement sp.engine] } := by
        simp [txn_begin_stmt, txn_begin, h, txn_begin_in_engine, mapTxn,
              State.emit, txn_stmt_new, updateLast, newStmt]
      rw [hrun]
      exact stateInv_mk rfl (by simp [countRows, newStmt])
    | some t =>
      by_cases hgt : t.in_sub_stmt > TXN_SUB_STMT_MAX
      · have hrun : outState (txn_begin_stmt sp s) =
            { s with diag := some Err.ER_SUB_STMT_MAX } := by
          simp [txn_begin_stmt, h, hgt, State.raise, outState]
        rw [hrun]
        exact stateInv_of_txn_eq rfl hs
      · by_cases hp : t.in_prepare = true
        · by_cases h2p : t.is_two_phase = true
          · have hrun : outState (txn_begin_stmt sp s) =
                { s with diag := some Err.ER_CHANGE_PREPARED } := by
              simp [txn_begin_stmt, h, hgt, hp, h2p, State.raise, outState]
            rw [hrun]
            exact stateInv_of_txn_eq rfl hs
          · have hrun : outState (txn_begin_stmt sp s) = s := by
              simp [txn_begin_stmt, h, hgt, hp, h2p, State.raise, outState]
            rw [hrun]
            exact hs
        · cases he : t.engine with
          | none =>
            by_cases hst : t.stmts = []
            · have hrun : txn_begin_stmt sp s = .ok { s with
                  txn := some { t with stmts := [newStmt sp],
                                       in_sub_stmt := t.in_sub_stmt + 1,
                                       engine := some sp.engine },
                  events := s.events ++ [Event.engineBegin sp.engine,
                                         Event.engineBeginStatement sp.engine] } := by
                simp [txn_begin_stmt, txn_begin_in_engine, h, hgt, hp, he, hst,
                      mapTxn, State.emit, txn_stmt_new, updateLast_concat,
                      updateLast, newStmt]
              rw [hrun]
              refine stateInv_mk rfl ?_
              show t.n_rows = countRows [newStmt sp]
              rw [hs t h, hst]
              simp [countRows, newStmt]
            · have hrun : outState (txn_begin_stmt sp s) = s := by
                simp [txn_begin_stmt, txn_begin_in_engine, h, hgt, hp, he, hst,
                      outState]
              rw [hrun]
              exact hs
          | some e =>
            by_cases hee : e = sp.engine
            · have hrun : txn_begin_stmt sp s = .ok { s with
                  txn := some { t with stmts := t.stmts ++ [newStmt sp],
                                       in_sub_stmt := t.in_sub_stmt + 1 },
                  events := s.events ++ [Event.engineBeginStatement sp.engine] } := by
                simp [txn_begin_stmt, txn_begin_in_engine, h, hgt, hp, he, hee,
                      mapTxn, State.emit, txn_stmt_new, updateLast_concat, newStmt]
              rw [hrun]
              refine stateInv_mk rfl ?_
              show t.n_rows = countRows (t.stmts ++ [newStmt sp])
              rw [countRows_concat, hs t h]
              simp [newStmt]
            · have hrun : outState (txn_begin_stmt sp s) =
                  { s with diag := some Err.ER_CROSS_ENGINE_TRANSACTION } := by
                simp [txn_begin_stmt, txn_begin_in_engine, h, hgt, hp, he, hee,
                      State.raise, outState]
              rw [hrun]
              exact stateInv_of_txn_eq rfl hs
  · -- txn_commit_stmt
    intro env request s t stmt h hl hr hs
    by_cases hd : t.in_sub_stmt ≤ 0
    · have hrun : outState (txn_commit_stmt env request s) = s := by
        simp [txn_commit_stmt, h, hd, outState]
      rw [hrun]
      exact hs
    · by_cases hp : t.in_prepare = true
      · have hrun : outState (txn_commit_stmt env request s) = s := by
          simp [txn_commit_stmt, h, hd, hp, outState]
        rw [hrun]
        exact hs
      · cases hsp : stmt.space with
        | none =>
          have hrun : outState (txn_commit_stmt env request s) = s := by
            simp [txn_commit_stmt, h, hd, hp, hl, hsp, outState]
          rw [hrun]
          exact hs
        | some sp =>
          obtain ⟨init, hinit⟩ := List.getLast?_eq_some_iff.mp hl
          have hcnt : countRows (updateLast (fun st => txn_add_redo st request)
              t.stmts) = countRows t.stmts + 1 := by
            rw [hinit, updateLast_concat, countRows_concat, countRows_concat, hr]
            simp [txn_add_redo]
          have hinvT : StateInv { s with
              txn := some { t with in_sub_stmt := t.in_sub_stmt - 1 } } :=
            stateInv_mk rfl (hs t h)
          have hinvN : StateInv { s with
              txn := some { t with
                stmts := updateLast (fun st => txn_add_redo st request) t.stmts,
                n_rows := t.n_rows + 1,
                in_sub_stmt := t.in_sub_stmt - 1 } } :=
            stateInv_mk rfl (by rw [hcnt, hs t h])
          by_cases htemp : sp.is_temporary = true
          · by_cases hc : sp.on_replace ≠ [] ∧ sp.run_triggers = true ∧
                (stmt.old_tuple.isSome = true ∨ stmt.new_tuple.isSome = true)
            · by_cases hauto : t.is_autocommit = true ∧ t.in_sub_stmt - 1 = 0
              · have hrun : txn_commit_stmt env request s = txn_commit env
                    { s with
                      txn := some { t with in_sub_stmt := t.in_sub_stmt - 1 },
                      events := s.events ++ [Event.triggerRunOnReplace sp.sid] } := by
                  simp [txn_commit_stmt, h, hd, hp, hl, hsp, htemp, hc, hauto,
                        mapTxn, State.emit]
                rw [hrun]
                exact stateInv_commit env _ (stateInv_of_txn_eq rfl hinvT)
              · have hrun : txn_commit_stmt env request s = .ok
                    { s with
                      txn := some { t with in_sub_stmt := t.in_sub_stmt - 1 },
                      events := s.events ++ [Event.triggerRunOnReplace sp.sid] } := by
                  simp [txn_commit_stmt, h, hd, hp, hl, hsp, htemp, hc, hauto,
                        mapTxn, State.emit]
                rw [hrun]
                exact stateInv_of_txn_eq rfl hinvT
            · by_cases hauto : t.is_autocommit = true ∧ t.in_sub_stmt - 1 = 0
              · have hrun : txn_commit_stmt env request s = txn_commit env
                    { s with
                      txn := some { t with in_sub_stmt := t.in_sub_stmt - 1 } } := by
                  simp [txn_commit_stmt, h, hd, hp, hl, hsp, htemp, hc, hauto,
                        mapTxn, State.emit]
                rw [hrun]
                exact stateInv_commit env _ (stateInv_of_txn_eq rfl hinvT)
              · have hrun : txn_commit_stmt env request s = .ok
                    { s with
                      txn := some { t with in_sub_stmt := t.in_sub_stmt - 1 } } := by
                  simp [txn_commit_stmt, h, hd, hp, hl, hsp, htemp, hc, hauto,
                        mapTxn, State.emit]
                rw [hrun]
                exact stateInv_of_txn_eq rfl hinvT
          · by_cases hc : sp.on_replace ≠ [] ∧ sp.run_triggers = true ∧
                (stmt.old_tuple.isSome = true ∨ stmt.new_tuple.isSome = true)
            · by_cases hauto : t.is_autocommit = true ∧ t.in_sub_stmt - 1 = 0
              · have hrun : txn_commit_stmt env request s = txn_commit env
                    { s with
                      txn := some { t with
                        stmts := updateLast (fun st => txn_add_redo st request) t.stmts,
                        n_rows := t.n_rows + 1,
                        in_sub_stmt := t.in_sub_stmt - 1 },
                      events := s.events ++ [Event.triggerRunOnReplace sp.sid] } := by
                  simp [txn_commit_stmt, h, hd, hp, hl, hsp, htemp, hc, hauto,
                        mapTxn, State.emit]
                rw [hrun]
                exact stateInv_commit env _ (stateInv_of_txn_eq rfl hinvN)
              · have hrun : txn_commit_stmt env request s = .ok
                    { s with
                      txn := some { t with
                        stmts := updateLast (fun st => txn_add_redo st request) t.stmts,
                        n_rows := t.n_rows + 1,
                        in_sub_stmt := t.in_sub_stmt - 1 },
                      events := s.events ++ [Event.triggerRunOnReplace sp.sid] } := by
                  simp [txn_commit_stmt, h, hd, hp, hl, hsp, htemp, hc, hauto,
                        mapTxn, State.emit]
                rw [hrun]
                exact stateInv_of_txn_eq rfl hinvN
            · by_cases hauto : t.is_autocommit = true ∧ t.in_sub_stmt - 1 = 0
              · have hrun : txn_commit_stmt env request s = txn_commit env
                    { s with
                      txn := some { t with
                        stmts := updateLast (fun st => txn_add_redo st request) t.stmts,
                        n_rows := t.n_rows + 1,
                        in_sub_stmt := t.in_sub_stmt - 1 } } := by
                  simp [txn_commit_stmt, h, hd, hp, hl, hsp, htemp, hc, hauto,
                        mapTxn, State.emit]
                rw [hrun]
                exact stateInv_commit env _ (stateInv_of_txn_eq rfl hinvN)
              · have hrun : txn_commit_stmt env request s = .ok
                    { s with
                      txn := some { t with
                        stmts := updateLast (fun st => txn_add_redo st request) t.stmts,
                        n_rows := t.n_rows + 1,
                        in_sub_stmt := t.in_sub_stmt - 1 } } := by
                  simp [txn_commit_stmt, h, hd, hp, hl, hsp, htemp, hc, hauto,
                        mapTxn, State.emit]
                rw [hrun]
                exact stateInv_of_txn_eq rfl hinvN
  · -- txn_rollback_stmt
    intro s hs
    cases h : s.txn with
    | none =>
      have hrun : outState (txn_rollback_stmt s) = s := by
        simp [txn_rollback_stmt, h, outState]
      rw [hrun]
      exact hs
    | some t =>
      by_cases hac : t.is_autocommit = true
      · have hrun : outState (txn_rollback_stmt s) = txn_rollback s := by
          simp [txn_rollback_stmt, h, hac, outState]
        rw [hrun]
        exact stateInv_of_txn_none (txn_rollback_txn_none s)
      · by_cases hd : t.in_sub_stmt = 0
        · have hrun : outState (txn_rollback_stmt s) = s := by
            simp [txn_rollback_stmt, h, hac, hd, outState]
          rw [hrun]
          exact hs
        · cases hlast : t.stmts.getLast? with
          | none =>
            have hrun : outState (txn_rollback_stmt s) = s := by
              simp [txn_rollback_stmt, h, hac, hd, hlast, outState]
            rw [hrun]
            exact hs
          | some lst =>
            cases he : t.engine with
            | none =>
              have hrun : outState (txn_rollback_stmt s) = s := by
                simp [txn_rollback_stmt, h, hac, hd, hlast, he, outState]
              rw [hrun]
              exact hs
            | some e =>
              obtain ⟨init, hinit⟩ := List.getLast?_eq_some_iff.mp hlast
              by_cases hrow : lst.row.isSome = true
              · have hn1 : t.n_rows = countRows init + 1 := by
                  rw [hs t h, hinit, countRows_concat]
                  simp [hrow]
                have h0 : (0 : Int) ≤ countRows init := by
                  simp [countRows]
                have hpos : 1 ≤ t.n_rows := by
                  rw [hn1]; linarith
                have hrun : txn_rollback_stmt s = .ok { s with
                    txn := some { t with
                      stmts := updateLast (fun st => { st with row := none }) t.stmts,
                      n_rows := t.n_rows - 1,
                      in_sub_stmt := t.in_sub_stmt - 1 },
                    events := s.events ++ [Event.engineRollbackStatement e] } := by
                  simp [txn_rollback_stmt, h, hac, hd, hlast, he, hrow, hpos,
                        mapTxn, State.emit]
                rw [hrun]
                refine stateInv_mk rfl ?_
                show t.n_rows - 1 =
                  countRows (updateLast (fun st => { st with row := none }) t.stmts)
                rw [hinit, updateLast_concat, countRows_concat, hn1]
                simp
              · have hrun : txn_rollback_stmt s = .ok { s with
                    txn := some { t with in_sub_stmt := t.in_sub_stmt - 1 },
                    events := s.events ++ [Event.engineRollbackStatement e] } := by
                  simp [txn_rollback_stmt, h, hac, hd, hlast, he, hrow,
                        mapTxn, State.emit]
                rw [hrun]
                exact stateInv_mk rfl (hs t h)
  · -- the WAL request holds exactly n_rows rows
    intro env s t h hs
    rw [stamp_rows_length]
    exact (hs t h).symm

theorem row_count_invariant_all_ops_witness :
    (StateInv sEngA ∧ StateInv (outState (txn_begin_stmt spA sEngA))) ∧
    StateInv (outState (txn_commit_stmt envOk reqL sEngA)) ∧
    StateInv (outState (txn_rollback_stmt sRoll)) ∧
    ((stamp_rows sRoll.recoveryLsn envOk.now
        (tRoll.stmts.filterMap TxnStmt.row)).length : Int) = tRoll.n_rows := by
  have hA : StateInv sEngA := stateInv_mk (t := tEngA) rfl (by decide)
  have hR : StateInv sRoll := stateInv_mk (t := tRoll) rfl (by decide)
  exact ⟨⟨hA, row_count_invariant_all_ops.1 spA sEngA hA⟩,
         row_count_invariant_all_ops.2.1 envOk reqL sEngA tEngA stA rfl
           (by decide) rfl hA,
         row_count_invariant_all_ops.2.2.1 sRoll hR,
         row_count_invariant_all_ops.2.2.2 envOk sRoll tRoll rfl hR⟩

/-! ## C3 — the WAL request holds the statements' rows in statement order -/

/-- C3: `txn_write_to_wal` submits one WAL request whose rows are exactly
the non-void log rows of the transaction's statements in statement order
(`filterMap` skips voided rows without disturbing the order of the rest),
stamped with consecutive sequence numbers and the flush-time clock, and
their number equals `n_rows`.  No other WAL request is submitted, whether
the write succeeds or fails. -/
theorem wal_request_rows_in_statement_order (env : WalEnv) (s : State) (t : Txn)
    (h : s.txn = some t) (hn : t.n_rows = countRows t.stmts) (h0 : 0 < t.n_rows)
    (hw : env.walPresent = true)
    (hclean : ∀ r, Event.walWrite r ∉ s.events) :
    ((stamp_rows s.recoveryLsn env.now (t.stmts.filterMap TxnStmt.row)).length : Int)
        = t.n_rows ∧
    Event.walWrite (stamp_rows s.recoveryLsn env.now (t.stmts.filterMap TxnStmt.row))
      ∈ (outStateSig (txn_write_to_wal env s)).events ∧
    ∀ r, Event.walWrite r ∈ (outStateSig (txn_write_to_wal env s)).events →
      r = stamp_rows s.recoveryLsn env.now (t.stmts.filterMap TxnStmt.row) := by
  have hlen : ((stamp_rows s.recoveryLsn env.now
      (t.stmts.filterMap TxnStmt.row)).length : Int) = t.n_rows := by
    rw [stamp_rows_length]
    exact hn.symm
  have h1 : ¬ t.n_rows ≤ 0 := not_le.mpr h0
  have h2 : ¬ (((stamp_rows s.recoveryLsn env.now
      (t.stmts.filterMap TxnStmt.row)).length : Int) ≠ t.n_rows) :=
    not_not_intro hlen
  obtain ⟨extra, hev, hex⟩ : ∃ extra,
      (outStateSig (txn_write_to_wal env s)).events =
        s.events ++ Event.walWrite (stamp_rows s.recoveryLsn env.now
          (t.stmts.filterMap TxnStmt.row)) :: extra ∧
      ∀ r, Event.walWrite r ∉ extra := by
    by_cases h3 : env.walResult < 0
    · by_cases hwarn : env.tstop - env.tstart > env.too_long_threshold
      · by_cases htr : t.has_triggers = true
        · cases he : t.engine with
          | none =>
            exact ⟨[Event.sayWarnTooLong, Event.triggerRunOnRollback,
                    Event.regionDestroy, Event.fiberReschedule],
              by simp [txn_write_to_wal, txn_rollback, h, h1, h2, hw, h3, hwarn,
                     htr, he, outStateSig, State.emit, State.raise], by simp⟩
          | some e =>
            exact ⟨[Event.sayWarnTooLong, Event.triggerRunOnRollback,
                    Event.engineRollback e, Event.regionDestroy,
                    Event.fiberReschedule],
              by simp [txn_write_to_wal, txn_rollback, h, h1, h2, hw, h3, hwarn,
                     htr, he, outStateSig, State.emit, State.raise], by simp⟩
        · cases he : t.engine with
          | none =>
            exact ⟨[Event.sayWarnTooLong, Event.regionDestroy,
                    Event.fiberReschedule],
              by simp [txn_write_to_wal, txn_rollback, h, h1, h2, hw, h3, hwarn,
                     htr, he, outStateSig, State.emit, State.raise], by simp⟩
          | some e =>
            exact ⟨[Event.sayWarnTooLong, Event.engineRollback e,
                    Event.regionDestroy, Event.fiberReschedule],
              by simp [txn_write_to_wal, txn_rollback, h, h1, h2, hw, h3, hwarn,
                     htr, he, outStateSig, State.emit, State.raise], by simp⟩
      · by_cases htr : t.has_triggers = true
        · cases he : t.engine with
          | none =>
            exact ⟨[Event.triggerRunOnRollback, Event.regionDestroy,
                    Event.fiberReschedule],
              by simp [txn_write_to_wal, txn_rollback, h, h1, h2, hw, h3, hwarn,
                     htr, he, outStateSig, State.emit, State.raise], by simp⟩
          | some e =>
            exact ⟨[Event.triggerRunOnRollback, Event.engineRollback e,
                    Event.regionDestroy, Event.fiberReschedule],
              by simp [txn_write_to_wal, txn_rollback, h, h1, h2, hw, h3, hwarn,
                     htr, he, outStateSig, State.emit, State.raise], by simp⟩
        · cases he : t.engine with
          | none =>
            exact ⟨[Event.regionDestroy, Event.fiberReschedule],
              by simp [txn_write_to_wal, txn_rollback, h, h1, h2, hw, h3, hwarn,
                     htr, he, outStateSig, State.emit, State.raise], by simp⟩
          | some e =>
            exact ⟨[Event.engineRollback e, Event.regionDestroy,
                    Event.fiberReschedule],
              by simp [txn_write_to_wal, txn_rollback, h, h1, h2, hw, h3, hwarn,
                     htr, he, outStateSig, State.emit, State.raise], by simp⟩
    · by_cases hwarn : env.tstop - env.tstart > env.too_long_threshold
      · exact ⟨[Event.sayWarnTooLong],
          by simp [txn_write_to_wal, h, h1, h2, hw, h3, hwarn, outStateSig,
                   State.emit], by simp⟩
      · exact ⟨[],
          by simp [txn_write_to_wal, h, h1, h2, hw, h3, hwarn, outStateSig,
                   State.emit], by simp⟩
  refine ⟨hlen, ?_, ?_⟩
  · rw [hev]
    simp
  · intro r hr
    rw [hev] at hr
    rcases List.mem_append.mp hr with hr1 | hr2
    · exact absurd hr1 (hclean r)
    · rcases List.mem_cons.mp hr2 with heq | hr3
      · exact Event.walWrite.inj heq
      · exact absurd hr3 (hex r)

theorem wal_request_rows_in_statement_order_witness :
    ((stamp_rows sRoll.recoveryLsn envOk.now
        (tRoll.stmts.filterMap TxnStmt.row)).length : Int) = tRoll.n_rows ∧
    Event.walWrite (stamp_rows sRoll.recoveryLsn envOk.now
        (tRoll.stmts.filterMap TxnStmt.row))
      ∈ (outStateSig (txn_write_to_wal envOk sRoll)).events ∧
    ∀ r, Event.walWrite r ∈ (outStateSig (txn_write_to_wal envOk sRoll)).events →
      r = stamp_rows sRoll.recoveryLsn envOk.now
            (tRoll.stmts.filterMap TxnStmt.row) :=
  wal_request_rows_in_statement_order envOk sRoll tRoll rfl (by decide)
    (by decide) rfl (fun r => by simp [sRoll, s0])

/-! ## C1 — WAL failure fully rolls back before surfacing the error -/

/-- C1: when the WAL write during commit returns a negative result, the
transaction is fully rolled back before the error is surfaced: the
rollback triggers run, the bound engine's rollback hook is invoked, the
arena (region) is destroyed, the context's active-transaction binding is
cleared, the fiber is rescheduled to the end of the ready queue, and the
caller of the commit entry point receives `-1` with `ER_WAL_IO_FAILED` in the
diagnostics slot — and no engine-commit event is ever emitted, so the
caller never observes a half-committed transaction. -/
theorem wal_failure_rolls_back_fully (env : WalEnv) (s : State) (t : Txn) (e : Nat)
    (h : s.txn = some t) (he : t.engine = some e)
    (hd : t.in_sub_stmt = 0) (h2p : t.is_two_phase = false)
    (htr : t.has_triggers = true)
    (hn : t.n_rows = countRows t.stmts) (h0 : 0 < t.n_rows)
    (hw : env.walPresent = true) (hfail : env.walResult < 0)
    (hwarn : ¬ env.tstop - env.tstart > env.too_long_threshold) :
    box_txn_commit env s =
      (-1, { s with
             txn := none,
             events := s.events ++
               [Event.enginePrepare e,
                Event.walWrite (stamp_rows s.recoveryLsn env.now
                  (t.stmts.filterMap TxnStmt.row)),
                Event.triggerRunOnRollback,
                Event.engineRollback e,
                Event.regionDestroy,
                Event.fiberReschedule],
             recoveryLsn := s.recoveryLsn +
               ((stamp_rows s.recoveryLsn env.now
                  (t.stmts.filterMap TxnStmt.row)).length : Int),
             diag := some Err.ER_WAL_IO_FAILED }) ∧
    ∀ eng sig, Event.engineCommit eng sig ∉
      [Event.enginePrepare e,
       Event.walWrite (stamp_rows s.recoveryLsn env.now
         (t.stmts.filterMap TxnStmt.row)),
       Event.triggerRunOnRollback,
       Event.engineRollback e,
       Event.regionDestroy,
       Event.fiberReschedule] := by
  have h1 : ¬ t.n_rows ≤ 0 := not_le.mpr h0
  have hlen : ((stamp_rows s.recoveryLsn env.now
      (t.stmts.filterMap TxnStmt.row)).length : Int) = t.n_rows := by
    rw [stamp_rows_length]
    exact hn.symm
  have h2 : ¬ (((stamp_rows s.recoveryLsn env.now
      (t.stmts.filterMap TxnStmt.row)).length : Int) ≠ t.n_rows) :=
    not_not_intro hlen
  constructor
  · simp [box_txn_commit, txn_commit, txn_write_to_wal, txn_rollback, h, he,
          hd, h2p, htr, h0, h1, h2, hw, hfail, hwarn, outState, State.emit,
          State.raise, mapTxn]
  · intro eng sig
    simp

theorem wal_failure_rolls_back_fully_witness :
    box_txn_commit envFail sC1w =
      (-1, { sC1w with
             txn := none,
             events := sC1w.events ++
               [Event.enginePrepare 0,
                Event.walWrite (stamp_rows sC1w.recoveryLsn envFail.now
                  (tC1.stmts.filterMap TxnStmt.row)),
                Event.triggerRunOnRollback,
                Event.engineRollback 0,
                Event.regionDestroy,
                Event.fiberReschedule],
             recoveryLsn := sC1w.recoveryLsn +
               ((stamp_rows sC1w.recoveryLsn envFail.now
                  (tC1.stmts.filterMap TxnStmt.row)).length : Int),
             diag := some Err.ER_WAL_IO_FAILED }) ∧
    ∀ eng sig, Event.engineCommit eng sig ∉
      [Event.enginePrepare 0,
       Event.walWrite (stamp_rows sC1w.recoveryLsn envFail.now
         (tC1.stmts.filterMap TxnStmt.row)),
       Event.triggerRunOnRollback,
       Event.engineRollback 0,
       Event.regionDestroy,
       Event.fiberReschedule] :=
  wal_failure_rolls_back_fully envFail sC1w tC1 0 rfl rfl rfl rfl rfl
    (by decide) (by decide) rfl (by decide) (by decide)

end TxnModel
